import Mathlib

/-!
Shallow embedding of the network provider and transaction-confirmation
subsystem of `@ton-ai-core/blueprint` (file `src/network/createNetworkProvider.ts`,
provided as `src/unnamed/part_001`), together with theorems settling the
frozen claims about it.

Conventions used throughout:
* JavaScript `undefined` is `Option.none`; a JS union `A | B` is a small
  inductive with one constructor per arm.
* JS truthiness is made explicit wherever the source relies on it
  (`''`, `0`, `0n` are falsy; objects and functions are always truthy).
* Library calls whose output is only ever embedded into diagnostic strings
  (`Date.toISOString`, `JSON.stringify`, explorer-link builders) are
  parameters of the embedding, collected in `FormatEnv`.
* `await`ed network results are oracles: functions from the index of the
  network call to its result.  `sleep` has no observable effect on control
  flow and is modelled only where a claim mentions accumulated delay.
-/

namespace Blueprint

/-- JS `string | bigint` (source `TransactionFees` fields, `total_fees`, `lt`). -/
inductive StrOrBig where
  | str (s : String)
  | big (n : Int)
deriving DecidableEq

/-- JS truthiness of a `string | bigint` value: `''` and `0n` are falsy. -/
def StrOrBig.truthy : StrOrBig → Bool
  | .str s => !(s == "")
  | .big n => !(n == 0)

/-- String interpolation of a `string | bigint` value. -/
def StrOrBig.interp : StrOrBig → String
  | .str s => s
  | .big n => toString n

/-- JS `number | string` (source `exit_arg`, `gas_used`, `vm_steps`). -/
inductive NumOrStr where
  | num (n : Int)
  | str (s : String)
deriving DecidableEq

/-- String interpolation of a `number | string` value. -/
def NumOrStr.interp : NumOrStr → String
  | .num n => toString n
  | .str s => s

/-- Source `TransactionFees` (part_001 lines 109-115). -/
structure TransactionFees where
  gas_fee : Option StrOrBig := none
  storage_fee : Option StrOrBig := none
  forward_fee : Option StrOrBig := none
  total_fee : Option StrOrBig := none
  total_fees : Option StrOrBig := none
deriving DecidableEq

/-- Source `hash` field: `string | (() => Buffer)` (line 119).  Calling the
function either yields the hex string of the buffer or throws; a call that
throws is modelled as `fn none` (the catch at lines 346-348 maps it to
`undefined`). -/
inductive HashField where
  | str (s : String)
  | fn (call : Option String)
deriving DecidableEq

/-- JS truthiness of the raw hash field: `''` is falsy, a function is truthy. -/
def HashField.truthy : HashField → Bool
  | .str s => !(s == "")
  | .fn _ => true

/-- Source `lt` field: `string | bigint | (() => bigint)` (lines 120-121);
`fn none` models a call that throws. -/
inductive LtField where
  | str (s : String)
  | big (n : Int)
  | fn (call : Option Int)
deriving DecidableEq

/-- JS truthiness of the raw lt field: `''` and `0n` are falsy, a function is truthy. -/
def LtField.truthy : LtField → Bool
  | .str s => !(s == "")
  | .big n => !(n == 0)
  | .fn _ => true

/-- Source `transaction_id` (line 120). -/
structure TransactionId where
  hash : HashField
  lt : LtField
deriving DecidableEq

/-- Source `compute` phase of `TransactionType` (lines 127-132).  The TS type
has no `success` member here; the routine at lines 371-389 can therefore never
consult a compute-success flag. -/
structure ComputePhase where
  exit_code : Option Int := none
  exit_arg : Option NumOrStr := none
  gas_used : Option NumOrStr := none
  vm_steps : Option NumOrStr := none
deriving DecidableEq

/-- Source `TransactionType` (lines 118-135): the minimal transaction shape
`verifyTransactionStatus` works on. -/
structure TransactionType where
  hash : Option HashField := none
  transaction_id : Option TransactionId := none
  lt : Option LtField := none
  utime : Option Nat := none
  timestamp : Option Nat := none
  total_fees : Option StrOrBig := none
  fees : Option TransactionFees := none
  status : Option String := none
  compute : Option ComputePhase := none
  success : Option Bool := none
  aborted : Option Bool := none
deriving DecidableEq

/-- `tx.compute?.exit_code` (line 339). -/
def txExitCode (tx : TransactionType) : Option Int :=
  tx.compute.bind ComputePhase.exit_code

/-- `tx.compute?.exit_arg` (line 340). -/
def txExitArg (tx : TransactionType) : Option NumOrStr :=
  tx.compute.bind ComputePhase.exit_arg

/-- JS `a || b` on the optional hash fields (line 342): yields `a` when `a`
is truthy, otherwise `b`. -/
def jsOrHash (a b : Option HashField) : Option HashField :=
  match a with
  | some h => if h.truthy then some h else b
  | none => b

/-- Lines 343-349: if the hash field is a function, call it (throw becomes
`undefined`); afterwards the value is `string | undefined`. -/
def resolveHashField : Option HashField → Option String
  | some (.str s) => some s
  | some (.fn call) => call
  | none => none

/-- `tx.hash || tx.transaction_id?.hash`, resolved (lines 342-349). -/
def txHashStr (tx : TransactionType) : Option String :=
  resolveHashField (jsOrHash tx.hash (tx.transaction_id.map TransactionId.hash))

/-- JS `a || b` on the optional lt fields (line 351). -/
def jsOrLt (a b : Option LtField) : Option LtField :=
  match a with
  | some l => if l.truthy then some l else b
  | none => b

/-- Lines 352-358: if the lt field is a function, call it (throw becomes
`undefined`); afterwards the value is `string | bigint | undefined`. -/
def resolveLtField : Option LtField → Option StrOrBig
  | some (.str s) => some (.str s)
  | some (.big n) => some (.big n)
  | some (.fn call) => call.map StrOrBig.big
  | none => none

/-- `tx.lt || tx.transaction_id?.lt`, resolved (lines 351-358). -/
def txLtVal (tx : TransactionType) : Option StrOrBig :=
  resolveLtField (jsOrLt tx.lt (tx.transaction_id.map TransactionId.lt))

/-- JS `a || b` on optional numbers (line 360): `0` is falsy. -/
def jsOrNat (a b : Option Nat) : Option Nat :=
  match a with
  | some n => if n == 0 then b else some n
  | none => b

/-- `tx.utime || tx.timestamp` (line 360). -/
def txTimestamp (tx : TransactionType) : Option Nat :=
  jsOrNat tx.utime tx.timestamp

/-- Result of `tx.total_fees || tx.fees` (line 361): either the scalar
`total_fees` or the `fees` object. -/
inductive FeesVal where
  | tot (v : StrOrBig)
  | obj (f : TransactionFees)
deriving DecidableEq

/-- `tx.total_fees || tx.fees` (line 361). -/
def txFeesVal (tx : TransactionType) : Option FeesVal :=
  match tx.total_fees with
  | some v => if v.truthy then some (.tot v) else tx.fees.map FeesVal.obj
  | none => tx.fees.map FeesVal.obj

/-- JS truthiness of the combined fees value: objects are always truthy. -/
def FeesVal.truthy : FeesVal → Bool
  | .tot v => v.truthy
  | .obj _ => true

/-- JS truthiness of a `string | undefined` value. -/
def optStrTruthy : Option String → Bool
  | some s => !(s == "")
  | none => false

/-- JS truthiness of a `number | undefined` value. -/
def optNatTruthy : Option Nat → Bool
  | some n => !(n == 0)
  | none => false

/-- JS truthiness of the resolved lt value. -/
def optLtTruthy : Option StrOrBig → Bool
  | some v => v.truthy
  | none => false

/-- External formatting helpers that the source delegates to libraries:
`new Date(ts * 1000).toISOString()` (line 381), `JSON.stringify` on the fees
value (line 382, may throw, e.g. on a bigint), and
`getExplorerTxLink(hash, network, explorer)` (lines 365-369, network and
explorer fixed at provider construction). -/
structure FormatEnv where
  isoDate : Nat → String
  stringifyFees : FeesVal → Except Unit String
  explorerLink : String → String

/-- Lines 363-370: `explorerTxLink` starts as `''` and is set only when the
resolved hash is truthy (`this.#network` and `this.#explorer` are non-empty
string enumerations, hence always truthy). -/
def explorerTxLinkOf (env : FormatEnv) (txHash : Option String) : String :=
  match txHash with
  | some s => if s == "" then "" else env.explorerLink s
  | none => ""

/-- Line 373: the failure test of `verifyTransactionStatus`:
`(typeof status === 'string' && status === 'failed') ||
 (exitCode !== undefined && exitCode !== 0 && exitCode !== 1)` (lines 371-374). -/
def isTxFailed (tx : TransactionType) : Bool :=
  (match tx.status with
   | some s => s == "failed"
   | none => false)
  || (match txExitCode tx with
      | some c => !(c == 0) && !(c == 1)
      | none => false)

/-- `${exitCode ?? 'unknown'}` (line 376). -/
def exitCodeStr : Option Int → String
  | some c => toString c
  | none => "unknown"

/-- Line 377: `if (exitArg !== undefined) errorMsg += ...` (presence test,
not truthiness). -/
def segExitArg (tx : TransactionType) : String :=
  match txExitArg tx with
  | some a => "Exit arg: " ++ a.interp ++ "\n"
  | none => ""

/-- Line 378: `if (status) errorMsg += ...`. -/
def segStatus (tx : TransactionType) : String :=
  if optStrTruthy tx.status then "Status: " ++ tx.status.getD "" ++ "\n" else ""

/-- Line 379: `if (txHash) errorMsg += ...`. -/
def segTxHash (tx : TransactionType) : String :=
  if optStrTruthy (txHashStr tx) then "Tx hash: " ++ (txHashStr tx).getD "" ++ "\n" else ""

/-- Line 380: `if (lt) errorMsg += ...`. -/
def segLt (tx : TransactionType) : String :=
  match txLtVal tx with
  | some v => if v.truthy then "LT: " ++ v.interp ++ "\n" else ""
  | none => ""

/-- Line 381: `if (timestamp) errorMsg += ...`. -/
def segTimestamp (env : FormatEnv) (tx : TransactionType) : String :=
  match txTimestamp tx with
  | some t => if t == 0 then "" else "Timestamp: " ++ env.isoDate t ++ "\n"
  | none => ""

/-- Line 382: `if (fees) errorMsg += ...`; `JSON.stringify` may throw, which
escapes to the outer catch of `verifyTransactionStatus`. -/
def segFees (env : FormatEnv) (tx : TransactionType) : Except Unit String :=
  match txFeesVal tx with
  | some f =>
    if f.truthy then (env.stringifyFees f).map (fun s => "Fees: " ++ s ++ "\n")
    else .ok ""
  | none => .ok ""

/-- Line 383: `if (explorerTxLink) errorMsg += ...`. -/
def segExplorer (env : FormatEnv) (tx : TransactionType) : String :=
  let link := explorerTxLinkOf env (txHashStr tx)
  if link == "" then "" else "Explorer: " ++ link ++ "\n"

/-- The diagnostic `errorMsg` built at lines 375-383, in source order. -/
def verifyErrorMsg (env : FormatEnv) (tx : TransactionType) : Except Unit String :=
  (segFees env tx).map fun feesSeg =>
    "Transaction failed.\n" ++ "Exit code: " ++ exitCodeStr (txExitCode tx) ++ "\n"
      ++ segExitArg tx ++ segStatus tx ++ segTxHash tx ++ segLt tx
      ++ segTimestamp env tx ++ feesSeg ++ segExplorer env tx

/-- Line 54: bounded-retry count of the transaction fetch loop. -/
def MAX_TONAPI_ATTEMPTS : Nat := 5

/-- Which client class `this.#tc` is an instance of (lines 293-335):
`ContractAdapter` (REST indexer), `TonClient` (v2 JSON-RPC),
`TonClient4` (v4 JSON-RPC), or anything else (e.g. `LiteClient`). -/
inductive ClientKind where
  | tonapi
  | v2
  | v4
  | other
deriving DecidableEq

/-- The fetch loops of lines 294-307 / 309-332: at most `MAX_TONAPI_ATTEMPTS`
attempts; a per-attempt exception is swallowed and retried (lines 302-304,
327-329); the loop breaks on the first non-empty list; on exhaustion the
`txs` variable still holds an empty list.  `fetch i` is the result of the
`i`-th network fetch; the `fuel` argument is `MAX_TONAPI_ATTEMPTS - attempts`. -/
def fetchTxs (fetch : Nat → Except Unit (List TransactionType)) :
    Nat → Nat → List TransactionType
  | _, 0 => []
  | attempt, fuel + 1 =>
    match fetch attempt with
    | .ok txs => if txs.isEmpty then fetchTxs fetch (attempt + 1) fuel else txs
    | .error _ => fetchTxs fetch (attempt + 1) fuel

/-- Return shape of `verifyTransactionStatus` (line 286). -/
structure VerifyResult where
  success : Bool
  error : Option String := none
  tx : Option TransactionType := none
deriving DecidableEq

/-- The body of the `try` block of `verifyTransactionStatus` (lines 287-392):
* a client that is none of the three known classes reports success with no
  transaction (lines 333-335);
* otherwise the bounded fetch loop runs; an empty result reports success
  (line 392);
* a fetched transaction is classified by `isTxFailed`; on failure the
  diagnostic message is built (building it can itself throw, e.g.
  `JSON.stringify` on a bigint fee, which the `.error` branch propagates
  to the outer catch). -/
def verifyTryBody (env : FormatEnv) (kind : ClientKind)
    (fetch : Nat → Except Unit (List TransactionType)) : Except Unit VerifyResult :=
  match kind with
  | .other => .ok { success := true }
  | _ =>
    match fetchTxs fetch 0 MAX_TONAPI_ATTEMPTS with
    | [] => .ok { success := true }
    | tx :: _ =>
      if isTxFailed tx then
        match verifyErrorMsg env tx with
        | .ok msg => .ok { success := false, error := some msg, tx := some tx }
        | .error e => .error e
      else .ok { success := true, tx := some tx }

/-- `verifyTransactionStatus` (lines 284-397): any exception reaching the
outer catch is logged and reported as success (lines 393-396). -/
def verifyTransactionStatus (env : FormatEnv) (kind : ClientKind)
    (fetch : Nat → Except Unit (List TransactionType)) : VerifyResult :=
  match verifyTryBody env kind fetch with
  | .ok r => r
  | .error _ => { success := true }

/-- Outcome of an `async` method: normal return or a thrown `Error(msg)`. -/
inductive JsOutcome where
  | ok
  | error (msg : String)
deriving DecidableEq

/-- Line 425. -/
def configMsg : String := "Attempt number must be positive"

/-- Line 567. -/
def timeoutMsg : String := "Contract was not deployed. Check your wallet's transactions"

/-- Line 666. -/
def lastTxTimeoutMsg : String := "Transaction was not applied. Check your wallet's transactions"

/-- Line 637. -/
def noAddressMsg : String := "Sender must have an address"

/-- Line 583. -/
def notImplementedMsg : String := "Not implemented"

/-- The polling loop of `waitForDeploy` (lines 428-564).  `deployed i` is the
result of the `i`-th `isContractDeployed` call (`i` starts at 1, matching the
loop variable); `verify` is the result of the single
`verifyTransactionStatus` call made on first observed activation.  Returns
the outcome together with the number of activation polls issued.  On
activation with a successful verification the method only reports (lines
443-560: UI writes and the by-hash cross-check, whose failure is written as a
warning at lines 469-474 and never aborts) and returns; on failed
verification it throws (lines 438-442).  On fall-through the timeout error of
line 567 is thrown. -/
def waitForDeployGo (deployed : Nat → Bool) (verify : VerifyResult) :
    Nat → Nat → JsOutcome × Nat
  | _, 0 => (.error timeoutMsg, 0)
  | i, rem + 1 =>
    if deployed i then
      (if verify.success then .ok
       else .error ("Transaction failed:\n" ++ verify.error.getD "undefined"), 1)
    else
      let r := waitForDeployGo deployed verify (i + 1) rem
      (r.1, r.2 + 1)

/-- `waitForDeploy` (lines 423-568): the attempts guard of lines 424-426 runs
before any network call; sleeping (lines 434, 563) does not affect the
outcome and is not modelled. -/
def waitForDeploy (deployed : Nat → Bool) (verify : VerifyResult)
    (attempts : Int) : JsOutcome × Nat :=
  if attempts ≤ 0 then (.error configMsg, 0)
  else waitForDeployGo deployed verify 1 attempts.toNat

/-! ### `verifyTransactionByHash` (lines 705-777)

The raw TonAPI response uses snake_case and nested `compute_phase`.  Only the
fields consulted by the classification (lines 728-736) are relevant; the rest
feed the diagnostic text only. -/

/-- `compute_phase` of the TonAPI by-hash response (lines 728-729, 754-759). -/
structure ApiComputePhase where
  exit_code : Option Int := none
  success : Option Bool := none
  exit_arg : Option NumOrStr := none
  gas_used : Option NumOrStr := none
  vm_steps : Option NumOrStr := none
deriving DecidableEq

/-- The TonAPI by-hash transaction shape (fields consulted at lines 727-759). -/
structure ApiTransaction where
  compute_phase : Option ApiComputePhase := none
  success : Option Bool := none
  status : Option String := none
  aborted : Option Bool := none
deriving DecidableEq

/-- `tx.compute_phase?.exit_code` (line 728). -/
def apiExitCode (tx : ApiTransaction) : Option Int :=
  tx.compute_phase.bind ApiComputePhase.exit_code

/-- `tx.compute_phase?.success` (line 729). -/
def apiComputeSuccess (tx : ApiTransaction) : Option Bool :=
  tx.compute_phase.bind ApiComputePhase.success

/-- The failure classification of `verifyTransactionByHash` (lines 730-736):
`txSuccessOverall = tx.success === true`,
`isFailedCompute = (exitCode !== undefined && exitCode !== 0 && exitCode !== 1)
                   || computeSuccess === false`,
`isFailedOverall = txSuccessOverall === false`, failed iff either. -/
def isFailedByHash (tx : ApiTransaction) : Bool :=
  let txSuccessOverall := tx.success == some true
  let isFailedCompute :=
    (match apiExitCode tx with
     | some c => !(c == 0) && !(c == 1)
     | none => false)
    || (apiComputeSuccess tx == some false)
  let isFailedOverall := txSuccessOverall == false
  isFailedCompute || isFailedOverall

/-! ### `waitForLastTransaction` (lines 570-667) -/

/-- `inMessage.info.type` of a `@ton/core` transaction (line 618). -/
inductive MsgInfoType where
  | externalIn
  | internal
  | externalOut
deriving DecidableEq

/-- An inbound message: its info type plus an abstract payload identity; the
normalized hash is computed by a parameter function of the embedding
(`getNormalizedExtMessageHash` lives outside this file's sources). -/
structure ChainMessage where
  infoType : MsgInfoType
  body : Nat
deriving DecidableEq

/-- A `@ton/core` transaction as consulted by `isTransactionApplied`:
its optional inbound message, logical time and unix time. -/
structure ChainTx where
  inMessage : Option ChainMessage
  lt : Nat
  now : Nat
deriving DecidableEq

/-- The scan loop of `isTransactionApplied` (lines 617-627): skip any
transaction whose inbound message is missing or not of type `external-in`;
return the first one whose normalized hash equals the target. -/
def findAppliedTx (h : ChainMessage → Nat) (target : Nat) :
    List ChainTx → Option ChainTx
  | [] => none
  | tx :: rest =>
    match tx.inMessage with
    | some m =>
      if m.infoType == MsgInfoType.externalIn then
        if h m == target then some tx else findAppliedTx h target rest
      else findAppliedTx h target rest
    | none => findAppliedTx h target rest

/-- `isTransactionApplied` (lines 600-628): not applied when the account has
no last transaction (lines 605-608) or the history fetch throws (lines
610-615); otherwise scan the fetched history. -/
def isTransactionApplied (h : ChainMessage → Nat) (target : Nat)
    (lastState : Option Unit) (fetched : Except Unit (List ChainTx)) :
    Option ChainTx :=
  match lastState with
  | none => none
  | some _ =>
    match fetched with
    | .error _ => none
    | .ok txs => findAppliedTx h target txs

/-- `obtainInMessageHash` (lines 570-584): `lastSendResult` must be an object
with a string `boc`; `some boc` models that shape, anything else throws
`Not implemented`.  `hashOfBoc` composes `Cell.fromBase64`, `loadMessage` and
`getNormalizedExtMessageHash` (lines 578-580), all outside this file's
sources. -/
def obtainInMessageHash (hashOfBoc : String → Nat) :
    Option String → Except String Nat
  | some boc => .ok (hashOfBoc boc)
  | none => .error notImplementedMsg

/-- The polling loop of `waitForLastTransaction` (lines 642-664): `polls i`
is the pair (account `last` state, history fetch result) observed by the
`i`-th `isTransactionApplied` call.  Returns the found transaction (if any)
and the number of polls issued. -/
def waitForLastGo (h : ChainMessage → Nat) (target : Nat)
    (polls : Nat → Option Unit × Except Unit (List ChainTx)) :
    Nat → Nat → Option ChainTx × Nat
  | _, 0 => (none, 0)
  | i, rem + 1 =>
    let p := polls i
    match isTransactionApplied h target p.1 p.2 with
    | some tx => (some tx, 1)
    | none =>
      let r := waitForLastGo h target polls (i + 1) rem
      (r.1, r.2 + 1)

/-- `waitForLastTransaction` (lines 630-667), in source order: the attempts
guard (lines 633-635), the sender-address guard (lines 636-638), hash
extraction (line 640), then the bounded polling loop; exhaustion throws the
fixed timeout error (line 666). -/
def waitForLastTransaction (h : ChainMessage → Nat) (hashOfBoc : String → Nat)
    (lastSendBoc : Option String) (senderAddr : Option Unit)
    (polls : Nat → Option Unit × Except Unit (List ChainTx))
    (attempts : Int) : JsOutcome × Nat :=
  if attempts ≤ 0 then (.error configMsg, 0)
  else if senderAddr.isNone then (.error noAddressMsg, 0)
  else
    match obtainInMessageHash hashOfBoc lastSendBoc with
    | .error m => (.error m, 0)
    | .ok target =>
      let r := waitForLastGo h target polls 1 attempts.toNat
      match r.1 with
      | some _ => (.ok, r.2)
      | none => (.error lastTxTimeoutMsg, r.2)

/-! ### The backoff-aware HTTP adapter (lines 1012-1032) -/

/-- Line 56. -/
def INITIAL_DELAY : Nat := 400

/-- Line 57. -/
def MAX_ATTEMPTS : Nat := 4

/-- Outcome of one `httpAdapter` call: the final HTTP status, or a thrown
`Error` message. -/
inductive HttpOutcome where
  | ok (st : Nat)
  | error (msg : String)
deriving DecidableEq

/-- Observable trace of one `httpAdapter` call. -/
structure HttpRunResult where
  requests : Nat
  totalSleep : Nat
  outcome : HttpOutcome
deriving DecidableEq

/-- The `while (true)` loop of `httpAdapter` (lines 1016-1031): issue the
request; any status other than 429 is returned; on 429 sleep `delay`, double
it, increment `attempts` and throw once `attempts >= MAX_ATTEMPTS`.
`status i` is the HTTP status of the `i`-th request; `fuel` is
`MAX_ATTEMPTS - attempts - 1`, the number of retries still allowed, so the
loop issues at most `MAX_ATTEMPTS` requests. -/
def httpAdapterGo (status : Nat → Nat) : Nat → Nat → Nat → HttpRunResult
  | i, delay, fuel =>
    if status i == 429 then
      match fuel with
      | 0 => { requests := 1, totalSleep := delay, outcome := .error "Max attempts reached" }
      | fuel + 1 =>
        let r := httpAdapterGo status (i + 1) (delay * 2) fuel
        { requests := r.requests + 1, totalSleep := delay + r.totalSleep, outcome := r.outcome }
    else { requests := 1, totalSleep := 0, outcome := .ok (status i) }

/-- `httpAdapter` (lines 1012-1032): `delay` starts at `INITIAL_DELAY`,
`attempts` at 0. -/
def httpAdapter (status : Nat → Nat) : HttpRunResult :=
  httpAdapterGo status 0 INITIAL_DELAY (MAX_ATTEMPTS - 1)

/-! ### The provider builder (lines 835-1058) -/

/-- `CustomNetwork` as consumed by `build` (lines 952-973): endpoint,
optional version (`v2`, `v4`, `tonapi`, `liteclient`), optional API key,
optional type override. -/
structure CustomNetwork where
  endpoint : String
  version : Option String := none
  key : Option String := none
  type : Option String := none
deriving DecidableEq

/-- The client object constructed for a custom network. -/
inductive BuiltClient where
  | v2 (endpoint : String) (apiKey : Option String)
  | v4 (endpoint : String)
  | tonapi (endpoint : String) (apiKey : Option String)
  | liteclient (endpoint : String)
deriving DecidableEq

/-- Result of the client-construction step: the client, or a thrown
configuration error. -/
inductive BuildResult where
  | ok (c : BuiltClient)
  | error (msg : String)
deriving DecidableEq

/-- The custom-network client construction of `build` (lines 977-1000),
together with the number of network requests it performs before returning or
throwing: only the liteclient branch fetches anything (the configuration
document, lines 808-833); every other branch, and every thrown configuration
error, performs none. -/
def buildCustomClient (cn : CustomNetwork) : BuildResult × Nat :=
  if cn.version = none ∨ cn.version = some "v2" then
    (.ok (.v2 cn.endpoint cn.key), 0)
  else if cn.version = some "v4" then
    if cn.key ≠ none then (.error "Cannot use a custom API key with a v4 API", 0)
    else (.ok (.v4 cn.endpoint), 0)
  else if cn.version = some "tonapi" then
    (.ok (.tonapi cn.endpoint cn.key), 0)
  else if cn.version = some "liteclient" then
    (.ok (.liteclient cn.endpoint), 1)
  else
    (.error ("Unknown API version: " ++ cn.version.getD "undefined"), 0)

/-! ### The v2 `getTransactions` request options (lines 99-106) -/

/-- The options object accepted by the v2 JSON-RPC `getTransactions`
(`_TransactionOptions`, lines 99-106). -/
structure GetTransactionsOpts where
  limit : Nat
  lt : Option String := none
  hash : Option String := none
  to_lt : Option String := none
  inclusive : Option Bool := none
  archival : Option Bool := none
deriving DecidableEq

/-- The options passed by `getLastTransactions` on the `TonClient` path
(line 588): `{ limit: 100, archival: true }` — the source comments
"without archival not working with tonclient". -/
def getLastTransactionsV2Opts : GetTransactionsOpts :=
  { limit := 100, archival := some true }

/-- The options passed by `verifyTransactionStatus` on the `TonClient` path
(lines 314-317): `{ limit }` with `limit = 1` (line 291) — `archival` is left
unset. -/
def verifyStatusV2Opts : GetTransactionsOpts :=
  { limit := 1 }

/-! ### Spec-side predicate and statement helpers -/

/-- The uniform failure predicate asserted by the spec ("overallSuccess is
false iff (exitCode is defined and not in 0,1) OR (status === 'failed') OR
(computeSuccess === false)"), written from the spec's words for comparison
with the two classification routines embedded above. -/
def specOverallSuccessFalse (exitCode : Option Int) (status : Option String)
    (computeSuccess : Option Bool) : Prop :=
  (∃ c, exitCode = some c ∧ c ≠ 0 ∧ c ≠ 1)
    ∨ status = some "failed" ∨ computeSuccess = some false

/-- `sub` occurs as a contiguous substring of `s`; used to state claims about
diagnostic text. -/
def strContains (s sub : String) : Prop := sub.data <:+: s.data

instance (s sub : String) : Decidable (strContains s sub) :=
  inferInstanceAs (Decidable (sub.data <:+: s.data))

/-! ### Concrete inputs used by counterexamples and witnesses -/

/-- Concrete formatting helpers for evaluating the embedding. -/
def plainFormatEnv : FormatEnv where
  isoDate := fun _ => "1970-01-01T00:00:00.000Z"
  stringifyFees := fun _ => .ok "fees"
  explorerLink := fun s => s

/-- A fetched transaction whose compute exit code is 2 and nothing else set. -/
def exitTwoTx : TransactionType := { compute := some { exit_code := some 2 } }

/-- A fetched transaction whose backend status is literally `failed`. -/
def failedStatusTx : TransactionType := { status := some "failed" }

/-- A by-hash response carrying only `status: "ok"`: no exit code, no
compute-success flag, and no overall `success` flag. -/
def okStatusOnlyApiTx : ApiTransaction := { status := some "ok" }

/-- A by-hash response with `status: "failed"` but overall `success: true`. -/
def failedStatusOkApiTx : ApiTransaction :=
  { status := some "failed", success := some true }

/-- A one-element history whose transaction's inbound message is external-in
with payload identity 2 (the normalized-hash value of `sampleMessage` under
`ChainMessage.body`). -/
def sampleMessage : ChainMessage := { infoType := .externalIn, body := 2 }

/-- The history containing just the transaction that received `sampleMessage`. -/
def sampleHistory : List ChainTx :=
  [{ inMessage := some sampleMessage, lt := 5, now := 9 }]

/-! ### Helper lemmas -/

/-- A string of the form `a ++ (sub ++ b)` contains `sub`. -/
theorem strContains_of_head (a sub b : String) : strContains (a ++ (sub ++ b)) sub :=
  ⟨a.data, b.data, by simp [String.data_append]⟩

/-- Containment is preserved by prepending. -/
theorem strContains_append_left (a s sub : String) (hc : strContains s sub) :
    strContains (a ++ s) sub := by
  obtain ⟨p, q, hp⟩ := hc
  exact ⟨a.data ++ p, q, by simp [String.data_append, ← hp]⟩

/-- Containment is preserved by appending on the right. -/
theorem strContains_append_right (s t sub : String) (hc : strContains s sub) :
    strContains (s ++ t) sub := by
  obtain ⟨p, q, hp⟩ := hc
  exact ⟨p, q ++ t.data, by simp [String.data_append, ← hp]⟩

/-- A string of the form `a ++ sub` contains `sub`. -/
theorem strContains_tail (a sub : String) : strContains (a ++ sub) sub :=
  ⟨a.data, [], by simp [String.data_append]⟩

/-- A successfully built diagnostic message contains the exit-code line. -/
theorem verifyErrorMsg_contains_exit (env : FormatEnv) (tx : TransactionType)
    (msg : String) (hmsg : verifyErrorMsg env tx = .ok msg) :
    strContains msg ("Exit code: " ++ exitCodeStr (txExitCode tx)) := by
  unfold verifyErrorMsg at hmsg
  cases hf : segFees env tx with
  | error e => rw [hf] at hmsg; simp [Except.map] at hmsg
  | ok feesSeg =>
    rw [hf] at hmsg
    simp only [Except.map, Except.ok.injEq] at hmsg
    subst hmsg
    apply strContains_append_right
    apply strContains_append_right
    apply strContains_append_right
    apply strContains_append_right
    apply strContains_append_right
    apply strContains_append_right
    apply strContains_append_right
    apply strContains_append_right
    rw [String.append_assoc]
    exact strContains_tail _ _

/-- If the contract is first seen deployed on poll `k`, the polling loop of
`waitForDeploy` stops there with the verification branch's outcome. -/
theorem waitForDeployGo_found (deployed : Nat → Bool) (verify : VerifyResult) :
    ∀ (rem i k : Nat), i ≤ k → k < i + rem → deployed k = true →
      (∀ j, i ≤ j → j < k → deployed j = false) →
      waitForDeployGo deployed verify i rem
        = (if verify.success then JsOutcome.ok
           else JsOutcome.error ("Transaction failed:\n" ++ verify.error.getD "undefined"),
           k + 1 - i) := by
  intro rem
  induction rem with
  | zero => intro i k hik hk _ _; omega
  | succ rem ih =>
    intro i k hik hk hdep hbef
    unfold waitForDeployGo
    by_cases hd : deployed i = true
    · have hik' : i = k := by
        by_contra hne
        have hlt : i < k := lt_of_le_of_ne hik hne
        have := hbef i le_rfl hlt
        rw [this] at hd
        exact absurd hd (by simp)
      subst hik'
      rw [if_pos hd]
      have : i + 1 - i = 1 := by omega
      rw [this]
    · rw [if_neg hd]
      have hlt : i < k := by
        rcases Nat.lt_or_ge i k with hlt | hge
        · exact hlt
        · exfalso
          have heq : i = k := le_antisymm hik hge
          rw [heq] at hd
          exact hd hdep
      rw [ih (i + 1) k hlt (by omega) hdep (fun j hj1 hj2 => hbef j (by omega) hj2)]
      have : k + 1 - i = (k + 1 - (i + 1)) + 1 := by omega
      rw [this]

/-- If the contract never shows up as deployed, the polling loop of
`waitForDeploy` exhausts its budget and throws the fixed timeout error. -/
theorem waitForDeployGo_timeout (deployed : Nat → Bool) (verify : VerifyResult) :
    ∀ (rem i : Nat), (∀ j, i ≤ j → j < i + rem → deployed j = false) →
      waitForDeployGo deployed verify i rem = (.error timeoutMsg, rem) := by
  intro rem
  induction rem with
  | zero => intro i _; rfl
  | succ rem ih =>
    intro i hall
    unfold waitForDeployGo
    have hi : deployed i = false := hall i le_rfl (by omega)
    rw [if_neg (by simp [hi])]
    rw [ih (i + 1) (fun j hj1 hj2 => hall j (by omega) (by omega))]

/-- The polling loop of `waitForDeploy` can only end three ways: normal
return, the fixed timeout error, or the transaction-failed error — and the
latter only when the verification reported failure. -/
theorem waitForDeployGo_cases (deployed : Nat → Bool) (verify : VerifyResult) :
    ∀ (rem i : Nat),
      (waitForDeployGo deployed verify i rem).1 = JsOutcome.ok
      ∨ (waitForDeployGo deployed verify i rem).1 = JsOutcome.error timeoutMsg
      ∨ ((waitForDeployGo deployed verify i rem).1
            = JsOutcome.error ("Transaction failed:\n" ++ verify.error.getD "undefined")
          ∧ verify.success = false) := by
  intro rem
  induction rem with
  | zero => intro i; right; left; rfl
  | succ rem ih =>
    intro i
    unfold waitForDeployGo
    by_cases hd : deployed i = true
    · rw [if_pos hd]
      by_cases hs : verify.success = true
      · left; simp [hs]
      · right; right
        constructor
        · simp [hs]
        · simpa using hs
    · rw [if_neg hd]
      exact ih (i + 1)

/-- The scan of `isTransactionApplied` finds a transaction exactly when the
history contains one whose inbound message is `external-in` with the target
normalized hash. -/
theorem findAppliedTx_isSome (h : ChainMessage → Nat) (target : Nat)
    (txs : List ChainTx) :
    (findAppliedTx h target txs).isSome = true
      ↔ ∃ tx ∈ txs, ∃ m, tx.inMessage = some m
          ∧ m.infoType = MsgInfoType.externalIn ∧ h m = target := by
  induction txs with
  | nil => simp [findAppliedTx]
  | cons tx rest ih =>
    unfold findAppliedTx
    cases hm : tx.inMessage with
    | none => simp [hm, ih]
    | some m =>
      by_cases ht : m.infoType = MsgInfoType.externalIn
      · by_cases hh : h m = target
        · simp [hm, ht, hh]
        · simp [hm, ht, hh, ih]
      · simp [hm, ht, ih]

/-- The scan of `isTransactionApplied` is insensitive to the logical time and
timestamp of the transactions in the history. -/
theorem findAppliedTx_time_invariant (h : ChainMessage → Nat) (target : Nat)
    (f g : ChainTx → Nat) (txs : List ChainTx) :
    (findAppliedTx h target (txs.map fun t => { t with lt := f t, now := g t })).isSome
      = (findAppliedTx h target txs).isSome := by
  induction txs with
  | nil => rfl
  | cons tx rest ih =>
    simp only [List.map_cons]
    unfold findAppliedTx
    cases hm : tx.inMessage with
    | none => simpa [hm] using ih
    | some m =>
      by_cases ht : m.infoType = MsgInfoType.externalIn
      · by_cases hh : h m = target
        · simp [hm, ht, hh]
        · simpa [hm, ht, hh] using ih
      · simpa [hm, ht] using ih

/-- With a backend that keeps answering the same history, the polling loop of
`waitForLastTransaction` finds exactly what one scan of that history finds. -/
theorem waitForLastGo_const (h : ChainMessage → Nat) (target : Nat)
    (txs : List ChainTx) :
    ∀ (rem i : Nat),
      (waitForLastGo h target (fun _ => (some (), Except.ok txs)) i rem).1
        = if rem = 0 then none else findAppliedTx h target txs := by
  intro rem
  induction rem with
  | zero => intro i; rfl
  | succ rem ih =>
    intro i
    unfold waitForLastGo
    cases hf : findAppliedTx h target txs with
    | some tx => simp [isTransactionApplied, hf]
    | none =>
      simp only [isTransactionApplied, hf]
      simpa [hf] using ih (i + 1)

/-! ### Claim theorems -/

/-- C1 (counterexample): the claimed uniform classification — failed iff
(exit code defined and not in 0,1) or status = failed or compute-success =
false — is violated by `verifyTransactionByHash` in both directions: a
response with only `status: "ok"` (no success flag at all) is classified
failed, and a response with `status: "failed"` but `success: true` is
classified successful. -/
theorem c1_overall_success_counterexample :
    (isFailedByHash okStatusOnlyApiTx = true
      ∧ ¬ specOverallSuccessFalse (apiExitCode okStatusOnlyApiTx)
          okStatusOnlyApiTx.status (apiComputeSuccess okStatusOnlyApiTx))
    ∧ (isFailedByHash failedStatusOkApiTx = false
      ∧ specOverallSuccessFalse (apiExitCode failedStatusOkApiTx)
          failedStatusOkApiTx.status (apiComputeSuccess failedStatusOkApiTx)) := by
  refine ⟨⟨by decide, ?_⟩, ⟨by decide, ?_⟩⟩
  · rintro (⟨c, hc, -, -⟩ | hs | hcs)
    · simp [apiExitCode, okStatusOnlyApiTx] at hc
    · exact absurd hs (by decide)
    · simp [apiComputeSuccess, okStatusOnlyApiTx] at hcs
  · exact Or.inr (Or.inl rfl)

/-- C1 (amended): the two verification routines classify differently.
`verifyTransactionStatus` marks a transaction failed exactly when its status
is the literal `failed` or its compute exit code is defined and not in
`{0, 1}` — no compute-success flag exists in its transaction shape.
`verifyTransactionByHash` marks a response failed exactly when its compute
exit code is defined and not in `{0, 1}`, or `compute_phase.success` is
`false`, or the overall `success` flag is not `true` (an absent flag counts
as failed); the status field is not consulted there. -/
theorem c1_overall_success_amended (tx : TransactionType) (atx : ApiTransaction) :
    (isTxFailed tx = true
      ↔ tx.status = some "failed"
        ∨ ∃ c, txExitCode tx = some c ∧ c ≠ 0 ∧ c ≠ 1)
    ∧ (isFailedByHash atx = true
      ↔ (∃ c, apiExitCode atx = some c ∧ c ≠ 0 ∧ c ≠ 1)
        ∨ apiComputeSuccess atx = some false
        ∨ ¬ atx.success = some true) := by
  constructor
  · unfold isTxFailed
    cases hs : tx.status with
    | none => cases he : txExitCode tx <;> simp [he]
    | some s => cases he : txExitCode tx <;> simp [he, String.ext_iff]
  · unfold isFailedByHash
    cases hc : apiExitCode atx <;>
      cases hcs : apiComputeSuccess atx <;>
      cases hsu : atx.success <;>
      simp [hc, hcs, hsu, or_assoc]

/-- C3: against a transport answering 429, 429, 429, 200, the backoff loop of
`httpAdapter` succeeds on the 4th request having slept exactly
400 + 800 + 1600 ms (initial delay 400, doubled after each 429); and with a
transport that never stops answering 429 the call throws after the fixed
maximum number of attempts. -/
theorem c3_backoff_four_requests (status : Nat → Nat)
    (h0 : status 0 = 429) (h1 : status 1 = 429) (h2 : status 2 = 429)
    (h3 : status 3 = 200) :
    httpAdapter status = { requests := 4, totalSleep := 2800, outcome := .ok 200 }
    ∧ 2800 = 400 + 800 + 1600
    ∧ ∀ s : Nat → Nat, (∀ i, s i = 429) →
        (httpAdapter s).outcome = HttpOutcome.error "Max attempts reached" := by
  refine ⟨?_, rfl, ?_⟩
  · simp [httpAdapter, httpAdapterGo, INITIAL_DELAY, MAX_ATTEMPTS, h0, h1, h2, h3]
  · intro s hs
    simp [httpAdapter, httpAdapterGo, INITIAL_DELAY, MAX_ATTEMPTS, hs]

/-- Witness for C3 at the concrete transport 429, 429, 429, 200. -/
theorem c3_backoff_four_requests_witness :
    httpAdapter (fun i => if i < 3 then 429 else 200)
      = { requests := 4, totalSleep := 2800, outcome := .ok 200 } :=
  (c3_backoff_four_requests (fun i => if i < 3 then 429 else 200)
    rfl rfl rfl rfl).1

/-- C4: with a non-positive attempts budget, both `waitForDeploy` and
`waitForLastTransaction` throw the configuration error immediately, before
issuing a single network call (the poll counter stays at zero). -/
theorem c4_nonpositive_attempts
    (deployed : Nat → Bool) (verify : VerifyResult)
    (h : ChainMessage → Nat) (hashOfBoc : String → Nat)
    (lastSendBoc : Option String) (senderAddr : Option Unit)
    (polls : Nat → Option Unit × Except Unit (List ChainTx))
    (attempts : Int) (hA : attempts ≤ 0) :
    waitForDeploy deployed verify attempts = (.error configMsg, 0)
    ∧ waitForLastTransaction h hashOfBoc lastSendBoc senderAddr polls attempts
        = (.error configMsg, 0) := by
  constructor
  · simp [waitForDeploy, hA]
  · simp [waitForLastTransaction, hA]

/-- Witness for C4 at `attempts = 0` and at `attempts = -5`. -/
theorem c4_nonpositive_attempts_witness :
    waitForDeploy (fun _ => false) { success := true } 0 = (.error configMsg, 0)
    ∧ waitForLastTransaction (fun m => m.body) String.length none none
        (fun _ => (none, .ok [])) (-5) = (.error configMsg, 0) :=
  ⟨(c4_nonpositive_attempts (fun _ => false) { success := true } (fun m => m.body)
      String.length none none (fun _ => (none, .ok [])) 0 (by decide)).1,
   (c4_nonpositive_attempts (fun _ => false) { success := true } (fun m => m.body)
      String.length none none (fun _ => (none, .ok [])) (-5) (by decide)).2⟩

/-- C6 (code-bug evidence): on the `TonClient` (v2 JSON-RPC) path the history
retrieval of `getLastTransactions` sets `archival: true` itself, but the
transaction fetch of `verifyTransactionStatus` on the same client leaves
`archival` unset. -/
theorem c6_archival_flag :
    getLastTransactionsV2Opts.archival = some true
    ∧ verifyStatusV2Opts.archival = none :=
  ⟨rfl, rfl⟩

/-- C7 (counterexample): with 2 attempts at a 2000 ms interval against a
backend that never reports the contract active, `waitForDeploy` throws —
but the error is the fixed message, which names neither the configured
number of attempts (no "2" occurs in it) nor the configured interval (no
"2000" occurs in it). -/
theorem c7_timeout_message_counterexample :
    waitForDeploy (fun _ => false) { success := true } 2 = (.error timeoutMsg, 2)
    ∧ ¬ strContains timeoutMsg "2"
    ∧ ¬ strContains timeoutMsg "2000" := by
  refine ⟨?_, by decide, by decide⟩
  rfl

/-- C7 (amended): if `waitForDeploy` exhausts all its attempts without ever
observing the contract active, it throws the fixed error message
"Contract was not deployed. Check your wallet's transactions" after exactly
`attempts` activation polls; the message does not name the configured
attempts or interval. -/
theorem c7_timeout_fixed_message
    (deployed : Nat → Bool) (verify : VerifyResult) (attempts : Int)
    (hpos : 0 < attempts) (hnever : ∀ j, deployed j = false) :
    waitForDeploy deployed verify attempts = (.error timeoutMsg, attempts.toNat) := by
  unfold waitForDeploy
  rw [if_neg (by omega)]
  exact waitForDeployGo_timeout deployed verify attempts.toNat 1
    (fun j _ _ => hnever j)

/-- Witness for C7 (amended) at 3 attempts against a never-active backend. -/
theorem c7_timeout_fixed_message_witness :
    waitForDeploy (fun _ => false) { success := true } 3 = (.error timeoutMsg, 3) :=
  c7_timeout_fixed_message (fun _ => false) { success := true } 3 (by decide)
    (fun _ => rfl)

/-- C8: if the backend first reports the contract active on poll `k` of
`attempts` (1 ≤ k ≤ attempts), `waitForDeploy` issues exactly `k` activation
polls and then returns the verification branch's outcome, without issuing
poll `k + 1` or any later poll. -/
theorem c8_exact_poll_count
    (deployed : Nat → Bool) (verify : VerifyResult) (k : Nat) (attempts : Int)
    (hk1 : 1 ≤ k) (hk2 : (k : Int) ≤ attempts)
    (hdep : deployed k = true)
    (hbef : ∀ j, 1 ≤ j → j < k → deployed j = false) :
    waitForDeploy deployed verify attempts
      = (if verify.success then JsOutcome.ok
         else JsOutcome.error ("Transaction failed:\n" ++ verify.error.getD "undefined"),
         k) := by
  unfold waitForDeploy
  rw [if_neg (by omega)]
  rw [waitForDeployGo_found deployed verify attempts.toNat 1 k hk1 (by omega) hdep hbef]
  have : k + 1 - 1 = k := by omega
  rw [this]

/-- Witness for C8: active first on poll 3 of 5 gives exactly 3 polls. -/
theorem c8_exact_poll_count_witness :
    waitForDeploy (fun i => decide (3 ≤ i)) { success := true } 5
      = (JsOutcome.ok, 3) := by
  have h := c8_exact_poll_count (fun i => decide (3 ≤ i)) { success := true } 3 5
    (by decide) (by decide) (by decide) (by decide)
  simpa using h

/-- C9: building a provider for a custom network with version `v4` and an
API key set fails with the configuration error "Cannot use a custom API key
with a v4 API", and the client-construction step performs no network
request. -/
theorem c9_v4_key_config_error (endpoint k : String) (ty : Option String)
    (hk : k ≠ "") :
    buildCustomClient { endpoint := endpoint, version := some "v4", key := some k, type := ty }
      = (.error "Cannot use a custom API key with a v4 API", 0) := by
  unfold buildCustomClient
  rw [if_neg (by simp), if_pos rfl, if_pos (by simp)]

/-- Witness for C9 at a concrete endpoint and non-empty key. -/
theorem c9_v4_key_config_error_witness :
    buildCustomClient { endpoint := "http://e/", version := some "v4", key := some "secret" }
      = (.error "Cannot use a custom API key with a v4 API", 0) :=
  c9_v4_key_config_error "http://e/" "secret" none (by decide)

/-- C2: against a backend that answers with a given transaction history,
`waitForLastTransaction` reports the last send as applied exactly when some
transaction in that history has an inbound message of external-in type whose
normalized hash equals the hash derived from the sender's last send result;
and the scan ignores the logical time and timestamp of every transaction. -/
theorem c2_match_on_message_hash
    (h : ChainMessage → Nat) (hashOfBoc : String → Nat) (boc : String)
    (txs : List ChainTx) (attempts : Int) (hA : 1 ≤ attempts) :
    ((waitForLastTransaction h hashOfBoc (some boc) (some ())
        (fun _ => (some (), Except.ok txs)) attempts).1 = JsOutcome.ok
      ↔ ∃ tx ∈ txs, ∃ m, tx.inMessage = some m
          ∧ m.infoType = MsgInfoType.externalIn ∧ h m = hashOfBoc boc)
    ∧ ∀ (f g : ChainTx → Nat),
        (findAppliedTx h (hashOfBoc boc)
            (txs.map fun t => { t with lt := f t, now := g t })).isSome
          = (findAppliedTx h (hashOfBoc boc) txs).isSome := by
  refine ⟨?_, fun f g => findAppliedTx_time_invariant h (hashOfBoc boc) f g txs⟩
  have hkey := waitForLastGo_const h (hashOfBoc boc) txs attempts.toNat 1
  rw [if_neg (by omega)] at hkey
  have hiff := findAppliedTx_isSome h (hashOfBoc boc) txs
  unfold waitForLastTransaction
  rw [if_neg (by omega), if_neg (by simp)]
  simp only [obtainInMessageHash, hkey]
  cases hf : findAppliedTx h (hashOfBoc boc) txs with
  | some tx =>
    rw [hf] at hiff
    simp only [Option.isSome_some] at hiff
    simpa using hiff.mp trivial
  | none =>
    rw [hf] at hiff
    simp only [Option.isSome_none] at hiff
    constructor
    · intro hcon; exact absurd hcon (by simp)
    · intro hex; exact absurd (hiff.mpr hex) (by simp)

/-- Witness for C2 at a concrete one-element history whose inbound-message
hash matches the sender's last send. -/
theorem c2_match_on_message_hash_witness :
    (waitForLastTransaction ChainMessage.body String.length (some "ab") (some ())
        (fun _ => (some (), Except.ok sampleHistory)) 1).1 = JsOutcome.ok :=
  ((c2_match_on_message_hash ChainMessage.body String.length "ab" sampleHistory 1
      (by decide)).1).mpr
    ⟨{ inMessage := some sampleMessage, lt := 5, now := 9 }, by decide,
      sampleMessage, rfl, rfl, rfl⟩

/-- C5: when the transaction fetched by the verification step carries compute
exit code 2 and the contract is first seen active on poll `k`, `waitForDeploy`
throws the transaction-failed error, whose text contains the literal
"Exit code: 2", after exactly `k` polls — it does not retry further. -/
theorem c5_exit_code_two_aborts
    (env : FormatEnv) (kind : ClientKind)
    (fetch : Nat → Except Unit (List TransactionType))
    (deployed : Nat → Bool) (tx : TransactionType) (rest : List TransactionType)
    (msg : String) (k : Nat) (attempts : Int)
    (hkind : kind ≠ ClientKind.other)
    (hfetch : fetchTxs fetch 0 MAX_TONAPI_ATTEMPTS = tx :: rest)
    (hexit : txExitCode tx = some 2)
    (hmsg : verifyErrorMsg env tx = .ok msg)
    (hk1 : 1 ≤ k) (hk2 : (k : Int) ≤ attempts)
    (hdep : deployed k = true)
    (hbef : ∀ j, 1 ≤ j → j < k → deployed j = false) :
    waitForDeploy deployed (verifyTransactionStatus env kind fetch) attempts
      = (.error ("Transaction failed:\n" ++ msg), k)
    ∧ strContains ("Transaction failed:\n" ++ msg) "Exit code: 2" := by
  have hfail : isTxFailed tx = true := by
    unfold isTxFailed
    rw [hexit]
    simp
  have hverify : verifyTransactionStatus env kind fetch
      = { success := false, error := some msg, tx := some tx } := by
    unfold verifyTransactionStatus verifyTryBody
    cases kind with
    | other => exact absurd rfl hkind
    | tonapi => rw [hfetch]; simp [hfail, hmsg]
    | v2 => rw [hfetch]; simp [hfail, hmsg]
    | v4 => rw [hfetch]; simp [hfail, hmsg]
  constructor
  · unfold waitForDeploy
    rw [if_neg (by omega)]
    rw [waitForDeployGo_found deployed _ attempts.toNat 1 k hk1 (by omega) hdep hbef]
    rw [hverify]
    have : k + 1 - 1 = k := by omega
    rw [this]
    rfl
  · have hcont := verifyErrorMsg_contains_exit env tx msg hmsg
    rw [hexit] at hcont
    have : ("Exit code: " ++ exitCodeStr (some 2) : String) = "Exit code: 2" := rfl
    rw [this] at hcont
    exact strContains_append_left _ _ _ hcont

/-- Witness for C5: a v2 backend returning a single transaction with exit
code 2, active on the first of one poll. -/
theorem c5_exit_code_two_aborts_witness :
    waitForDeploy (fun i => decide (1 ≤ i))
        (verifyTransactionStatus plainFormatEnv ClientKind.v2 (fun _ => .ok [exitTwoTx])) 1
      = (.error ("Transaction failed:\n" ++ "Transaction failed.\nExit code: 2\n"), 1)
    ∧ strContains ("Transaction failed:\n" ++ "Transaction failed.\nExit code: 2\n")
        "Exit code: 2" :=
  c5_exit_code_two_aborts plainFormatEnv ClientKind.v2 (fun _ => .ok [exitTwoTx])
    (fun i => decide (1 ≤ i)) exitTwoTx [] "Transaction failed.\nExit code: 2\n" 1 1
    (by decide) rfl rfl rfl (by decide) (by decide) (by decide)
    (fun j h1 h2 => absurd h1 (Nat.not_le.mpr h2))

/-- C10: `verifyTransactionStatus` reports success with no transaction for a
client of unknown class; reports success whenever the bounded fetch loop
yields nothing; reports success whenever an exception escapes the try block;
and it reports failure only when a transaction was actually fetched and
classified failed on a known client — consequently `waitForDeploy` can abort
with a transaction-failed error (as opposed to the configuration or timeout
errors) only in that situation. -/
theorem c10_absence_is_success
    (env : FormatEnv) (kind : ClientKind)
    (fetch : Nat → Except Unit (List TransactionType))
    (deployed : Nat → Bool) (attempts : Int) :
    verifyTransactionStatus env ClientKind.other fetch = { success := true }
    ∧ (fetchTxs fetch 0 MAX_TONAPI_ATTEMPTS = [] →
        (verifyTransactionStatus env kind fetch).success = true)
    ∧ (∀ e, verifyTryBody env kind fetch = .error e →
        (verifyTransactionStatus env kind fetch).success = true)
    ∧ ((verifyTransactionStatus env kind fetch).success = false →
        ∃ tx rest, fetchTxs fetch 0 MAX_TONAPI_ATTEMPTS = tx :: rest
          ∧ isTxFailed tx = true ∧ kind ≠ ClientKind.other)
    ∧ (∀ msg,
        (waitForDeploy deployed (verifyTransactionStatus env kind fetch) attempts).1
          = JsOutcome.error msg →
        msg ≠ configMsg → msg ≠ timeoutMsg →
        (verifyTransactionStatus env kind fetch).success = false) := by
  refine ⟨rfl, ?_, ?_, ?_, ?_⟩
  · intro hempty
    unfold verifyTransactionStatus verifyTryBody
    cases kind <;> rw [hempty] <;> rfl
  · intro e he
    unfold verifyTransactionStatus
    rw [he]
  · intro hfail
    unfold verifyTransactionStatus verifyTryBody at hfail
    cases kind with
    | other => simp at hfail
    | tonapi =>
      cases hfetch : fetchTxs fetch 0 MAX_TONAPI_ATTEMPTS with
      | nil => rw [hfetch] at hfail; simp at hfail
      | cons tx rest =>
        rw [hfetch] at hfail
        by_cases hc : isTxFailed tx = true
        · exact ⟨tx, rest, rfl, hc, by simp⟩
        · simp [hc] at hfail
    | v2 =>
      cases hfetch : fetchTxs fetch 0 MAX_TONAPI_ATTEMPTS with
      | nil => rw [hfetch] at hfail; simp at hfail
      | cons tx rest =>
        rw [hfetch] at hfail
        by_cases hc : isTxFailed tx = true
        · exact ⟨tx, rest, rfl, hc, by simp⟩
        · simp [hc] at hfail
    | v4 =>
      cases hfetch : fetchTxs fetch 0 MAX_TONAPI_ATTEMPTS with
      | nil => rw [hfetch] at hfail; simp at hfail
      | cons tx rest =>
        rw [hfetch] at hfail
        by_cases hc : isTxFailed tx = true
        · exact ⟨tx, rest, rfl, hc, by simp⟩
        · simp [hc] at hfail
  · intro msg hout hcfg htmo
    unfold waitForDeploy at hout
    by_cases ha : attempts ≤ 0
    · rw [if_pos ha] at hout
      simp only [JsOutcome.error.injEq] at hout
      exact absurd hout.symm hcfg
    · rw [if_neg ha] at hout
      rcases waitForDeployGo_cases deployed (verifyTransactionStatus env kind fetch)
          attempts.toNat 1 with hc | hc | ⟨_, hc⟩
      · rw [hc] at hout; exact absurd hout (by simp)
      · rw [hc] at hout
        simp only [JsOutcome.error.injEq] at hout
        exact absurd hout.symm htmo
      · exact hc

/-- Witness for C10: a v2 backend whose single fetched transaction has
status "failed" makes the verification fail, exhibiting the fetched failed
transaction. -/
theorem c10_absence_is_success_witness :
    (verifyTransactionStatus plainFormatEnv ClientKind.v2
        (fun _ => .ok [failedStatusTx])).success = false
    ∧ ∃ tx rest,
        fetchTxs (fun _ => .ok [failedStatusTx]) 0 MAX_TONAPI_ATTEMPTS = tx :: rest
          ∧ isTxFailed tx = true ∧ ClientKind.v2 ≠ ClientKind.other :=
  ⟨by decide,
   (c10_absence_is_success plainFormatEnv ClientKind.v2 (fun _ => .ok [failedStatusTx])
      (fun _ => false) 1).2.2.2.1 (by decide)⟩

end Blueprint
